import Mathlib

/-!
Verification development for the homelab weather-app repository.

The development shallowly embeds the parts of the code the claims are
about:

* `src/app/api.py` — the Flask query service (`/health`, `/ready`,
  `/metrics`, `/api/weather/current`, `/api/weather/history`,
  `/api/weather/stats`).  The Postgres table `weather_data` is embedded
  as a `List Row`; each SQL query is translated into the corresponding
  pure list computation (filter for `WHERE`, sort for `ORDER BY`,
  take for `LIMIT`, folds for the aggregates).
* `src/app/collector.py` and `src/app/weather_app.py` — the collector
  loop (`main`), the provider client (`WeatherAPI.get_weather_data`)
  and the standalone health server (`HealthCheckHandler.do_GET`).
  The loop is embedded as a fuel-indexed transition function over an
  environment giving the outcome of each cycle's fetch and store and
  the value of the shutdown flag at each point of discrete time; one
  `time.sleep(1)` advances time by 1, `time.sleep(60)` by 60.

Timestamps are measured in hours (the spec's time-unit for query
windows), so `timedelta(hours=h)` is the integer `h`.
-/

namespace WeatherApp

/-! ## Observation store rows (table `weather_data`) -/

/-- Row of the `weather_data` table, as selected by the api.py queries
(`SELECT id, temperature, humidity, pressure, timestamp, city, country`).
`humidity` and `pressure` are nullable, the rest is NOT NULL. -/
structure Row where
  id : Nat
  temperature : ℚ
  humidity : Option ℚ
  pressure : Option ℚ
  timestamp : Int
  city : String
  country : String
deriving DecidableEq, Repr

/-- Ordering used by `ORDER BY timestamp DESC`: `a` comes no later than `b`
in the output iff `a.timestamp ≥ b.timestamp`. -/
def tsGe (a b : Row) : Prop := b.timestamp ≤ a.timestamp

instance : DecidableRel tsGe :=
  fun a b => inferInstanceAs (Decidable (b.timestamp ≤ a.timestamp))

instance : IsTotal Row tsGe := ⟨fun a b => le_total b.timestamp a.timestamp⟩

instance : IsTrans Row tsGe := ⟨fun _ _ _ h h' => le_trans h' h⟩

/-- Embedding of `ORDER BY timestamp DESC`. -/
def sortByTsDesc (l : List Row) : List Row := l.insertionSort tsGe

/-- Embedding of
`SELECT … FROM weather_data WHERE timestamp >= since ORDER BY timestamp DESC LIMIT limit`
(api.py `get_weather_history`, lines 185-191). -/
def rangeQuery (table : List Row) (since : Int) (limit : Nat) : List Row :=
  (sortByTsDesc (table.filter (fun r => decide (since ≤ r.timestamp)))).take limit

/-! ## Query-string parameter parsing

Flask's `request.args.get(key, default=d, type=int)` returns `d` when the
parameter is absent and also when the `int(...)` conversion fails; the
conversion error is swallowed.  `parseInt` models Python's `int` on the
strings that matter here: an optional sign followed by decimal digits
(it ignores `int`'s tolerance for surrounding whitespace and `_`
separators, which no claim depends on). -/

/-- Value of a non-empty list of decimal digit characters; `none` if any
character is not a digit. -/
def digitsToNat : List Char → Option Nat
  | [] => none
  | c :: cs =>
    if c.isDigit then
      match cs with
      | [] => some (c.toNat - 48)
      | _ => match digitsToNat cs with
        | some n => some ((c.toNat - 48) * 10 ^ cs.length + n)
        | none => none
    else none

/-- Python `int(s)` restricted to optional sign plus decimal digits. -/
def parseInt (s : String) : Option Int :=
  match s.toList with
  | '-' :: rest => (digitsToNat rest).map (fun n => -(n : Int))
  | '+' :: rest => (digitsToNat rest).map (fun n => (n : Int))
  | l => (digitsToNat l).map (fun n => (n : Int))

/-- Flask `request.args.get(key, default=d, type=int)`: the raw parameter is
`none` when absent; an unparseable value also yields the default. -/
def parseIntParam (p : Option String) (d : Int) : Int :=
  match p with
  | none => d
  | some s => (parseInt s).getD d

/-! ## api.py handlers -/

/-- Response of a Flask handler: a status code with a JSON body on the
success path, or a status code with the `error` string of the JSON error
body. -/
inductive ApiResponse (α : Type) where
  | ok (status : Nat) (body : α)
  | err (status : Nat) (error : String)
deriving DecidableEq

/-- Status code of a response, whichever branch produced it. -/
def ApiResponse.statusCode {α : Type} : ApiResponse α → Nat
  | .ok s _ => s
  | .err s _ => s

/-- api.py lines 174-175: `if hours < 1: hours = 24`. -/
def validatedHistoryHours (hours : Int) : Int := if hours < 1 then 24 else hours

/-- api.py lines 176-177: `if limit < 1 or limit > 1000: limit = 100`. -/
def validatedHistoryLimit (limit : Int) : Int :=
  if limit < 1 ∨ 1000 < limit then 100 else limit

/-- api.py lines 221-222 (`get_weather_stats`): `if hours < 1: hours = 24`. -/
def validatedStatsHours (hours : Int) : Int := if hours < 1 then 24 else hours

/-- api.py `get_weather_history` (lines 160-205), success path: parse
`hours` and `limit`, validate them, compute `time_threshold = now -
timedelta(hours=hours)` and return 200 with the rows of the range query.
The `except` branch (500) fires only on a database exception, which the
pure table embedding does not produce. -/
def get_weather_history (table : List Row) (now : Int)
    (hoursP limitP : Option String) : ApiResponse (List Row) :=
  let hours := validatedHistoryHours (parseIntParam hoursP 24)
  let limit := validatedHistoryLimit (parseIntParam limitP 100)
  let time_threshold := now - hours
  .ok 200 (rangeQuery table time_threshold limit.toNat)

/-- api.py `get_current_weather` (lines 126-158), success path:
`ORDER BY timestamp DESC LIMIT 1`; 404 with an error body when the table
is empty. -/
def get_current_weather (table : List Row) : ApiResponse Row :=
  match (sortByTsDesc table).head? with
  | some r => .ok 200 r
  | none => .err 404 "No weather data available"

/-- Single row returned by the aggregate query of api.py
`get_weather_stats` (lines 229-245).  SQL `AVG`/`MIN`/`MAX` over zero rows
(or over all-NULL values) are NULL, hence the `Option` fields; `COUNT (*)`
is always a number. -/
structure StatsRow where
  record_count : Nat
  avg_temperature : Option ℚ
  min_temperature : Option ℚ
  max_temperature : Option ℚ
  avg_humidity : Option ℚ
  min_humidity : Option ℚ
  max_humidity : Option ℚ
  avg_pressure : Option ℚ
  min_pressure : Option ℚ
  max_pressure : Option ℚ
  oldest_record : Option Int
  newest_record : Option Int
deriving DecidableEq, Repr

/-- SQL `AVG` over a list of non-NULL values: NULL on the empty list. -/
def avgList (l : List ℚ) : Option ℚ :=
  if l.isEmpty then none else some (l.sum / l.length)

/-- Embedding of the aggregate `SELECT COUNT(*), AVG(temperature), … FROM
weather_data WHERE timestamp >= since`.  `AVG`/`MIN`/`MAX` skip NULLs, so
the nullable columns go through `filterMap`. -/
def aggregateRows (table : List Row) (since : Int) : StatsRow :=
  let m := table.filter (fun r => decide (since ≤ r.timestamp))
  { record_count := m.length
    avg_temperature := avgList (m.map (·.temperature))
    min_temperature := (m.map (·.temperature)).min?
    max_temperature := (m.map (·.temperature)).max?
    avg_humidity := avgList (m.filterMap (·.humidity))
    min_humidity := (m.filterMap (·.humidity)).min?
    max_humidity := (m.filterMap (·.humidity)).max?
    avg_pressure := avgList (m.filterMap (·.pressure))
    min_pressure := (m.filterMap (·.pressure)).min?
    max_pressure := (m.filterMap (·.pressure)).max?
    oldest_record := (m.map (·.timestamp)).min?
    newest_record := (m.map (·.timestamp)).max? }

/-- Python `round(x, 2)` on the aggregate floats (api.py lines 257-259).
Ties are modelled as rounding half away from zero; Python's float `round`
resolves exact halves to even, but no claim distinguishes the two. -/
def round2 (q : ℚ) : ℚ := (round (100 * q) : ℤ) / 100

/-- api.py lines 256-259: `round(stats[key], 2)` applied to every value
that `isinstance(..., float)` — the nine aggregate columns; the integer
count and the timestamp strings are left untouched. -/
def roundStatsRow (s : StatsRow) : StatsRow :=
  { s with
    avg_temperature := s.avg_temperature.map round2
    min_temperature := s.min_temperature.map round2
    max_temperature := s.max_temperature.map round2
    avg_humidity := s.avg_humidity.map round2
    min_humidity := s.min_humidity.map round2
    max_humidity := s.max_humidity.map round2
    avg_pressure := s.avg_pressure.map round2
    min_pressure := s.min_pressure.map round2
    max_pressure := s.max_pressure.map round2 }

/-- api.py `get_weather_stats` (lines 212-270), success path: parse
`hours`, validate, aggregate; 200 with the rounded row when
`result['record_count'] > 0`, otherwise 404 with an error body. -/
def get_weather_stats (table : List Row) (now : Int)
    (hoursP : Option String) : ApiResponse StatsRow :=
  let hours := validatedStatsHours (parseIntParam hoursP 24)
  let time_threshold := now - hours
  let result := aggregateRows table time_threshold
  if 0 < result.record_count then .ok 200 (roundStatsRow result)
  else .err 404 "No weather data available for the specified time range"

/-! ## Readiness endpoints -/

/-- api.py `check_db_health` (lines 76-90): opens a connection and runs
`SELECT 1`; the probe succeeds exactly when the store is reachable at that
moment.  The argument is the store's reachability at the time of the call. -/
def check_db_health (dbReachableNow : Bool) : Bool := dbReachableNow

/-- api.py `ready` (lines 102-118): runs `check_db_health()` during the
request and answers 200/"ready" or 503/"not ready" by its outcome. -/
def ready (dbReachableNow : Bool) : Nat × String :=
  if check_db_health dbReachableNow then (200, "ready") else (503, "not ready")

/-- weather_app.py `HealthCheckHandler.do_GET`, `/ready` branch (lines
183-204): answers from the module-global `db_healthy` flag, which is set
once by `init_db` and never refreshed per request.  The second argument
is the store's actual reachability at request time; the handler never
consults it. -/
def weatherAppReady (db_healthy : Bool) (_dbReachableNow : Bool) : Nat × String :=
  if db_healthy then (200, "ready") else (503, "not ready")

/-! ## Metric side effects of the api.py handlers

The Prometheus calls a handler performs are embedded as a list of
events.  api.py declares `api_requests_total` (a counter labelled
`[method, endpoint, status]`) and `api_request_duration` (a histogram
labelled `[method, endpoint]`, lines 31-40); the event lists below record
every `.labels(...).inc()` and every histogram `.observe(...)` each
handler executes on each of its outcomes.  No handler in api.py contains
an `observe` call, and the `/metrics` handler (lines 120-123) touches no
metric at all. -/

/-- One Prometheus call performed while handling a request. -/
inductive MetricEvent where
  | counterInc (method endpoint status : String)
  | histogramObserve (method endpoint : String)
deriving DecidableEq, Repr

/-- Whether an event is an increment of `api_requests_total`. -/
def MetricEvent.isCounterInc : MetricEvent → Bool
  | .counterInc _ _ _ => true
  | _ => false

/-- Whether an event is an observation of `api_request_duration`. -/
def MetricEvent.isHistogramObserve : MetricEvent → Bool
  | .histogramObserve _ _ => true
  | _ => false

/-- Outcome of a handler that reads the store: data found, no data, or a
database exception (the `except` branch). -/
inductive QueryOutcome where
  | success
  | noData
  | dbError
deriving DecidableEq, Repr

/-- api.py `health` (lines 93-100). -/
def healthEvents : List MetricEvent := [.counterInc "GET" "/health" "200"]

/-- api.py `ready` (lines 102-118). -/
def readyEvents (dbReachableNow : Bool) : List MetricEvent :=
  if check_db_health dbReachableNow then [.counterInc "GET" "/ready" "200"]
  else [.counterInc "GET" "/ready" "503"]

/-- api.py `metrics` (lines 120-123): serves `generate_latest()` and
performs no counter increment and no histogram observation. -/
def metricsEvents : List MetricEvent := []

/-- api.py `get_current_weather` (lines 126-158). -/
def currentEvents : QueryOutcome → List MetricEvent
  | .success => [.counterInc "GET" "/api/weather/current" "200"]
  | .noData => [.counterInc "GET" "/api/weather/current" "404"]
  | .dbError => [.counterInc "GET" "/api/weather/current" "500"]

/-- api.py `get_weather_history` (lines 160-210); the handler answers 200
on every non-exception path, 500 on a database exception. -/
def historyEvents (dbOk : Bool) : List MetricEvent :=
  if dbOk then [.counterInc "GET" "/api/weather/history" "200"]
  else [.counterInc "GET" "/api/weather/history" "500"]

/-- api.py `get_weather_stats` (lines 212-270). -/
def statsEvents : QueryOutcome → List MetricEvent
  | .success => [.counterInc "GET" "/api/weather/stats" "200"]
  | .noData => [.counterInc "GET" "/api/weather/stats" "404"]
  | .dbError => [.counterInc "GET" "/api/weather/stats" "500"]

/-- weather_app.py `HealthCheckHandler.do_GET` (lines 170-215): none of
its branches (`/health`, `/ready`, `/metrics`, 404) touches any counter
or histogram. -/
def weatherAppHandlerEvents (_path : String) : List MetricEvent := []

/-! ## Provider client (`WeatherAPI.get_weather_data`)

collector.py lines 189-218 and weather_app.py lines 236-265 are
identical.  `requests.get` failures, non-2xx statuses
(`raise_for_status`) and JSON decode errors all raise subclasses of
`requests.exceptions.RequestException`, which the `except` clause turns
into a `None` return; any other exception escapes the function. -/

/-- Exception classes that matter to the collector; all of them are
Python `Exception` subclasses, so the loop's `except Exception` clause
catches every one of them. -/
inductive Exc where
  | keyError
  | dbError
  | other
deriving DecidableEq, Repr

/-- Domain observation built on a successful fetch (the dict returned at
collector.py lines 207-214). -/
structure Observation where
  temperature : ℚ
  humidity : ℚ
  pressure : ℚ
  timestamp : Int
  city : String
  country : String
deriving DecidableEq, Repr

/-- Outcome of one call to `WeatherAPI.get_weather_data` as seen by the
caller: the observation dict, the `None` return of the
`except RequestException` clause, or an exception escaping the call. -/
inductive FetchResult where
  | data (obs : Observation)
  | noneResult
  | raised (e : Exc)
deriving DecidableEq, Repr

/-- Fields of the provider's `current` JSON object that the client reads
(`temp_c`, `humidity`, `pressure_mb`); `none` models an absent key. -/
structure CurrentFields where
  temp_c : Option ℚ
  humidity : Option ℚ
  pressure_mb : Option ℚ
deriving DecidableEq, Repr

/-- Parsed JSON body of a 2xx provider reply; `none` models an absent
`current` key. -/
structure ProviderJson where
  current : Option CurrentFields
deriving DecidableEq, Repr

/-- What the HTTP round trip to the provider produced. -/
inductive ProviderOutcome where
  | transportFail
  | httpError (code : Nat)
  | badJson
  | ok (body : ProviderJson)
deriving DecidableEq, Repr

/-- collector.py `WeatherAPI.get_weather_data` (lines 189-218).
Transport failures, non-2xx replies and undecodable JSON are
`RequestException`s (caught, `None` returned).  On a 2xx reply the code
subscripts `data['current']['temp_c']`, `['humidity']` and
`['pressure_mb']`; a missing key raises `KeyError`, which the function
does not catch. -/
def get_weather_data (o : ProviderOutcome) (now : Int)
    (city country : String) : FetchResult :=
  match o with
  | .transportFail => .noneResult
  | .httpError _ => .noneResult
  | .badJson => .noneResult
  | .ok body =>
    match body.current with
    | none => .raised .keyError
    | some cur =>
      match cur.temp_c with
      | none => .raised .keyError
      | some t =>
        match cur.humidity with
        | none => .raised .keyError
        | some h =>
          match cur.pressure_mb with
          | none => .raised .keyError
          | some p =>
            .data { temperature := t, humidity := h, pressure := p,
                    timestamp := now, city := city, country := country }

/-- Whether a 2xx JSON body lacks one of the required fields. -/
def hasMissingField (b : ProviderJson) : Bool :=
  match b.current with
  | none => true
  | some c => c.temp_c.isNone || c.humidity.isNone || c.pressure_mb.isNone

/-! ## Collector loop (`main`, collector.py lines 230-273)

The loop is embedded as a transition function on discrete time.  An
environment fixes, for each cycle number, the outcome of the cycle's
fetch and of its store, and fixes the value of the global
`shutdown_flag` at each time instant.  Each `time.sleep(1)` of the poll
loop advances time by 1, the `time.sleep(60)` of the exception handler
by 60; fetch and store themselves are not charged time. -/

/-- Environment the loop runs against. -/
structure CollectorEnv where
  fetchAt : Nat → FetchResult
  storeAt : Nat → Option Exc
  shutdown_flag : Nat → Bool
  update_interval : Nat

/-- Interruptible between-cycle sleep, collector.py lines 258-262:
`for _ in range(update_interval): if shutdown_flag: break; time.sleep(1)`.
Arguments: remaining iterations, current time; result: the time when the
loop is left. -/
def pollSleep (flag : Nat → Bool) : Nat → Nat → Nat
  | 0, t => t
  | n + 1, t => if flag t then t else pollSleep flag n (t + 1)

/-- Body of one `while` iteration before its `except` clause
(collector.py lines 249-262): fetch; if data was returned, store it
(`store_weather_data` re-raises its database errors, lines 167-170);
then poll-sleep.  Result: the time at which the body finishes, or the
exception that escapes it. -/
def cycleBody (env : CollectorEnv) (n t : Nat) : Except Exc Nat :=
  match env.fetchAt n with
  | .raised e => .error e
  | .noneResult => .ok (pollSleep env.shutdown_flag env.update_interval t)
  | .data _ =>
    match env.storeAt n with
    | some e => .error e
    | none => .ok (pollSleep env.shutdown_flag env.update_interval t)

/-- One `while` iteration including its `except Exception` clause
(collector.py lines 264-266): a caught exception is logged and followed
by `time.sleep(60)`.  Result: the time at which the iteration ends. -/
def loopIter (env : CollectorEnv) (n t : Nat) : Nat :=
  match cycleBody env n t with
  | .error _ => t + 60
  | .ok tEnd => tEnd

/-- How a run of the `while not shutdown_flag` loop ended within the
given fuel. -/
inductive LoopResult where
  | gracefulStop (cyclesRun endTime : Nat)
  | outOfFuel
deriving DecidableEq, Repr

/-- The `while not shutdown_flag` loop (collector.py lines 247-266),
fuel-indexed: arguments are remaining fuel, next cycle number, current
time. -/
def collectorLoop (env : CollectorEnv) : Nat → Nat → Nat → LoopResult
  | 0, _, _ => .outOfFuel
  | fuel + 1, n, t =>
    if env.shutdown_flag t then .gracefulStop n t
    else collectorLoop env fuel (n + 1) (loopIter env n t)

/-- Fate of the process running `main`. -/
inductive MainResult where
  | crashed (e : Exc)
  | graceful (cyclesRun endTime : Nat)
  | stillRunning
deriving DecidableEq, Repr

/-- collector.py `main` (lines 230-273): STARTING runs `init_db` and the
`WeatherAPI` constructor — a failure there reaches the outer `except`
and re-raises (non-zero exit, `crashed`); otherwise the loop runs and a
`gracefulStop` is the graceful-shutdown exit. -/
def collectorMain (initResult : Option Exc) (env : CollectorEnv)
    (fuel : Nat) : MainResult :=
  match initResult with
  | some e => .crashed e
  | none =>
    match collectorLoop env fuel 0 0 with
    | .gracefulStop n t => .graceful n t
    | .outOfFuel => .stillRunning

/-! ## Helper lemmas -/

/-- Sorting permutes, so membership is preserved. -/
lemma mem_sortByTsDesc {r : Row} {l : List Row} :
    r ∈ sortByTsDesc l ↔ r ∈ l :=
  (List.perm_insertionSort tsGe l).mem_iff

/-- The sort is sorted by descending timestamp. -/
lemma sorted_sortByTsDesc (l : List Row) : List.Sorted tsGe (sortByTsDesc l) :=
  List.sorted_insertionSort tsGe l

/-- The range query returns at most `limit` rows. -/
lemma rangeQuery_length_le (table : List Row) (since : Int) (limit : Nat) :
    (rangeQuery table since limit).length ≤ limit := by
  unfold rangeQuery
  rw [List.length_take]
  exact min_le_left _ _

/-- Every row the range query returns satisfies the `WHERE` clause. -/
lemma rangeQuery_mem_since {table : List Row} {since : Int} {limit : Nat}
    {r : Row} (h : r ∈ rangeQuery table since limit) : since ≤ r.timestamp := by
  unfold rangeQuery at h
  have h1 : r ∈ sortByTsDesc (table.filter (fun r => decide (since ≤ r.timestamp))) :=
    List.mem_of_mem_take h
  have h2 : r ∈ table.filter (fun r => decide (since ≤ r.timestamp)) :=
    mem_sortByTsDesc.mp h1
  simpa using List.of_mem_filter h2

/-- The range query's output is ordered by descending timestamp. -/
lemma rangeQuery_sorted (table : List Row) (since : Int) (limit : Nat) :
    List.Sorted tsGe (rangeQuery table since limit) :=
  List.Pairwise.sublist (List.take_sublist _ _) (sorted_sortByTsDesc _)

/-- The range query over an empty match set is empty. -/
lemma rangeQuery_of_filter_eq_nil {table : List Row} {since : Int}
    (h : table.filter (fun r => decide (since ≤ r.timestamp)) = []) (limit : Nat) :
    rangeQuery table since limit = [] := by
  unfold rangeQuery
  rw [h]
  simp [sortByTsDesc]

/-- The poll-sleep never runs past its iteration budget. -/
lemma pollSleep_le_add (flag : Nat → Bool) (n t : Nat) :
    pollSleep flag n t ≤ t + n := by
  induction n generalizing t with
  | zero => simp [pollSleep]
  | succ m ih =>
    unfold pollSleep
    by_cases hf : flag t
    · simp [hf]
    · simp only [hf, if_neg, Bool.false_eq_true, not_false_eq_true]
      calc pollSleep flag m (t + 1) ≤ (t + 1) + m := ih (t + 1)
        _ = t + (m + 1) := by omega

/-- Time does not run backwards during the poll-sleep. -/
lemma le_pollSleep (flag : Nat → Bool) (n t : Nat) :
    t ≤ pollSleep flag n t := by
  induction n generalizing t with
  | zero => simp [pollSleep]
  | succ m ih =>
    unfold pollSleep
    by_cases hf : flag t
    · simp [hf]
    · simp only [hf, Bool.false_eq_true, if_neg, not_false_eq_true]
      calc t ≤ t + 1 := by omega
        _ ≤ pollSleep flag m (t + 1) := ih (t + 1)

/-- If the flag is up at time `t + k` with `k` within the budget, the
poll-sleep is over by time `t + k`. -/
lemma pollSleep_le_of_flag {flag : Nat → Bool} {n t k : Nat}
    (hk : flag (t + k) = true) (hkn : k ≤ n) :
    pollSleep flag n t ≤ t + k := by
  induction n generalizing t k with
  | zero => simp [pollSleep]
  | succ m ih =>
    unfold pollSleep
    by_cases hf : flag t
    · simp only [hf, if_pos]
      omega
    · simp only [hf, Bool.false_eq_true, if_neg, not_false_eq_true]
      match k, hk with
      | 0, hk => exact absurd (by simpa using hk) (by simpa using hf)
      | k' + 1, hk =>
        have : pollSleep flag m (t + 1) ≤ (t + 1) + k' :=
          ih (by rw [show t + 1 + k' = t + (k' + 1) by omega]; exact hk) (by omega)
        omega

/-- With a flag that is up at time `t + k`, `k` within the budget, the
flag is up at the time the poll-sleep ends: the sleep stops either at
the first instant the flag is seen up, or — when every check up to
`t + n - 1` saw it down — at `t + n` itself, where `k ≤ n` forces
`k = n`. -/
lemma flag_pollSleep {flag : Nat → Bool}
    {n t k : Nat} (hk : flag (t + k) = true) (hkn : k ≤ n) :
    flag (pollSleep flag n t) = true := by
  induction n generalizing t k with
  | zero =>
    have hk0 : k = 0 := by omega
    subst hk0
    simpa [pollSleep] using hk
  | succ m ih =>
    unfold pollSleep
    by_cases hf : flag t
    · simp [hf]
    · simp only [hf, Bool.false_eq_true, if_neg, not_false_eq_true]
      match k, hk with
      | 0, hk => exact absurd (by simpa using hk) (by simpa using hf)
      | k' + 1, hk =>
        exact ih (k := k')
          (by rw [show t + 1 + k' = t + (k' + 1) by omega]; exact hk) (by omega)

/-- A raising fetch makes the cycle body raise. -/
lemma cycleBody_error_of_fetch {env : CollectorEnv} {n : Nat} {e : Exc}
    (h : env.fetchAt n = .raised e) (t : Nat) :
    cycleBody env n t = .error e := by
  unfold cycleBody
  rw [h]

/-- A raising store makes the cycle body raise. -/
lemma cycleBody_error_of_store {env : CollectorEnv} {n : Nat} {e : Exc}
    {o : Observation} (hf : env.fetchAt n = .data o)
    (hs : env.storeAt n = some e) (t : Nat) :
    cycleBody env n t = .error e := by
  unfold cycleBody
  rw [hf, hs]

/-- A cycle whose body raises ends after exactly the 60-unit back-off. -/
lemma loopIter_of_error {env : CollectorEnv} {n t : Nat} {e : Exc}
    (h : cycleBody env n t = .error e) : loopIter env n t = t + 60 := by
  unfold loopIter
  rw [h]

/-- A cycle whose fetch returns `None` or whose fetch and store both
succeed ends at the end of the poll-sleep. -/
lemma loopIter_of_ok {env : CollectorEnv} {n : Nat}
    (h : env.fetchAt n = .noneResult ∨
      ∃ o, env.fetchAt n = .data o ∧ env.storeAt n = none) (t : Nat) :
    loopIter env n t = pollSleep env.shutdown_flag env.update_interval t := by
  unfold loopIter cycleBody
  rcases h with h | ⟨o, hf, hs⟩
  · rw [h]
  · rw [hf, hs]

/-- With the flag down, the loop proceeds to the next cycle. -/
lemma collectorLoop_step {env : CollectorEnv} {t : Nat}
    (h : env.shutdown_flag t = false) (fuel n : Nat) :
    collectorLoop env (fuel + 1) n t =
      collectorLoop env fuel (n + 1) (loopIter env n t) := by
  conv_lhs => rw [collectorLoop]
  rw [h]
  simp

/-- With the flag up, the loop stops. -/
lemma collectorLoop_stop {env : CollectorEnv} {t : Nat}
    (h : env.shutdown_flag t = true) (fuel n : Nat) :
    collectorLoop env (fuel + 1) n t = .gracefulStop n t := by
  conv_lhs => rw [collectorLoop]
  rw [h]
  simp

/-- Once STARTING has succeeded, no run of `main` crashes: every
exception inside a cycle is caught by the loop's `except Exception`
clause. -/
lemma collectorMain_ne_crashed (env : CollectorEnv) (fuel : Nat) (e : Exc) :
    collectorMain none env fuel ≠ .crashed e := by
  unfold collectorMain
  cases collectorLoop env fuel 0 0 <;> simp

/-! ## Claim theorems -/

/-- C1: in the RUNNING loop, every exception raised inside a cycle that
is not a handled fetch error (a raising fetch, or a raising store after
a successful fetch) is caught by the loop's `except Exception` clause,
which waits the fixed 60-time-unit back-off and returns control to the
`while` check, resuming RUNNING when no shutdown was requested; and once
STARTING has succeeded, no fetch or store error inside the loop can
terminate the process. -/
theorem collector_loop_contains_cycle_errors (env : CollectorEnv)
    (n t : Nat) (e : Exc)
    (h : env.fetchAt n = .raised e ∨
      ∃ o, env.fetchAt n = .data o ∧ env.storeAt n = some e) :
    loopIter env n t = t + 60 ∧
    (env.shutdown_flag t = false → ∀ fuel,
      collectorLoop env (fuel + 1) n t =
        collectorLoop env fuel (n + 1) (t + 60)) ∧
    (∀ fuel e', collectorMain none env fuel ≠ .crashed e') := by
  have hbody : cycleBody env n t = .error e := by
    rcases h with h | ⟨o, hf, hs⟩
    · exact cycleBody_error_of_fetch h t
    · exact cycleBody_error_of_store hf hs t
  have hiter := loopIter_of_error hbody
  refine ⟨hiter, fun hflag fuel => ?_,
    fun fuel e' => collectorMain_ne_crashed env fuel e'⟩
  rw [collectorLoop_step hflag fuel n, hiter]

/-- Environment in which every cycle's fetch raises a `KeyError` and the
shutdown flag stays down. -/
def envAllRaise : CollectorEnv :=
  { fetchAt := fun _ => .raised .keyError
    storeAt := fun _ => none
    shutdown_flag := fun _ => false
    update_interval := 300 }

/-- C1 witness: with every fetch raising, cycle 0 ends after exactly the
60-unit back-off, the loop goes on to cycle 1, and `main` does not
crash. -/
theorem collector_loop_contains_cycle_errors_witness :
    loopIter envAllRaise 0 0 = 60 ∧
    collectorLoop envAllRaise 1 0 0 = collectorLoop envAllRaise 0 1 60 ∧
    collectorMain none envAllRaise 5 ≠ .crashed .dbError := by
  have h := collector_loop_contains_cycle_errors envAllRaise 0 0 .keyError
    (Or.inl rfl)
  exact ⟨h.1, by simpa using h.2.1 rfl 0, h.2.2 5 .dbError⟩

/-- C6: when the shutdown flag goes up `k ≤ update_interval` time-units
into the between-cycle sleep, the poll loop — which re-checks the flag
before every 1-unit sleep — leaves the sleep no later than time `t + k`
(so at most the single 1-unit sleep in progress at the moment the flag
was raised completes), and the `while` check that follows sees the flag
and stops the loop without starting another cycle. -/
theorem shutdown_mid_sleep_stops_within_one_step (env : CollectorEnv)
    (n t k fuel : Nat)
    (hk : env.shutdown_flag (t + k) = true)
    (hkn : k ≤ env.update_interval)
    (ht : env.shutdown_flag t = false)
    (hcycle : env.fetchAt n = .noneResult ∨
      ∃ o, env.fetchAt n = .data o ∧ env.storeAt n = none) :
    loopIter env n t = pollSleep env.shutdown_flag env.update_interval t ∧
    loopIter env n t ≤ t + k ∧
    collectorLoop env (fuel + 2) n t = .gracefulStop (n + 1) (loopIter env n t) := by
  have hiter := loopIter_of_ok hcycle t
  have hle : loopIter env n t ≤ t + k := by
    rw [hiter]
    exact pollSleep_le_of_flag hk hkn
  have hflagEnd : env.shutdown_flag (loopIter env n t) = true := by
    rw [hiter]
    exact flag_pollSleep hk hkn
  refine ⟨hiter, hle, ?_⟩
  rw [show fuel + 2 = (fuel + 1) + 1 by rfl, collectorLoop_step ht (fuel + 1) n,
    collectorLoop_stop hflagEnd fuel (n + 1)]

/-- Environment whose shutdown flag goes up at time 5, during the first
between-cycle sleep (interval 300); fetches return `None`. -/
def envFlagAt5 : CollectorEnv :=
  { fetchAt := fun _ => .noneResult
    storeAt := fun _ => none
    shutdown_flag := fun t => decide (5 ≤ t)
    update_interval := 300 }

/-- C6 witness: the flag raised at time 5 ends the 300-unit sleep by
time 5 and the loop stops right after cycle 0. -/
theorem shutdown_mid_sleep_stops_within_one_step_witness :
    loopIter envFlagAt5 0 0 ≤ 5 ∧
    collectorLoop envFlagAt5 2 0 0 = .gracefulStop 1 (loopIter envFlagAt5 0 0) := by
  have h := shutdown_mid_sleep_stops_within_one_step envFlagAt5 0 0 5 0
    (by decide) (by decide) (by decide) (Or.inl rfl)
  exact ⟨by simpa using h.2.1, by simpa using h.2.2⟩

/-- C3 counterexample: on a 2xx provider reply whose JSON body lacks the
required fields (`current` absent), `get_weather_data` raises a
`KeyError` out of the call instead of returning the handled error value
(the `None` return that marks a caught `RequestException`), contradicting
the claim that the fetch returns a malformed-payload error value rather
than raising. -/
theorem malformed_payload_raises_cex :
    get_weather_data (.ok ⟨none⟩) 0 "Mississauga" "Canada" = .raised .keyError ∧
    FetchResult.raised .keyError ≠ .noneResult := by
  exact ⟨rfl, by decide⟩

/-- C3 (amended): on a 2xx reply missing a required field
(`current`, `temp_c`, `humidity` or `pressure_mb`), `get_weather_data`
raises a `KeyError`, which escapes the fetch and is caught by the
Collector Loop's generic `except Exception` clause: the loop logs, waits
the 60-unit back-off, continues with the next cycle, and the process
never terminates on it. -/
theorem malformed_payload_raises_and_loop_continues
    (b : ProviderJson) (now : Int) (city country : String)
    (hmiss : hasMissingField b = true) :
    get_weather_data (.ok b) now city country = .raised .keyError ∧
    (∀ (env : CollectorEnv) (n t : Nat), env.fetchAt n = .raised .keyError →
      loopIter env n t = t + 60 ∧
      (env.shutdown_flag t = false → ∀ fuel,
        collectorLoop env (fuel + 1) n t =
          collectorLoop env fuel (n + 1) (t + 60))) ∧
    (∀ (env : CollectorEnv) (fuel : Nat) (e : Exc),
      collectorMain none env fuel ≠ .crashed e) := by
  refine ⟨?_, fun env n t hf => ?_,
    fun env fuel e => collectorMain_ne_crashed env fuel e⟩
  · obtain ⟨cur⟩ := b
    cases cur with
    | none => rfl
    | some c =>
      obtain ⟨tc, hu, pm⟩ := c
      cases tc <;> cases hu <;> cases pm <;>
        simp_all [get_weather_data, hasMissingField]
  · have hbody := cycleBody_error_of_fetch hf t
    exact ⟨loopIter_of_error hbody, fun hflag fuel => by
      rw [collectorLoop_step hflag fuel n, loopIter_of_error hbody]⟩

/-- Environment in which every cycle's fetch raises `KeyError`, as it
does against a provider that keeps answering 2xx with a malformed body. -/
def envKeyErr : CollectorEnv :=
  { fetchAt := fun _ => .raised .keyError
    storeAt := fun _ => none
    shutdown_flag := fun _ => false
    update_interval := 300 }

/-- C3 witness: the body `{}` (no `current` key) makes the fetch raise,
and the loop absorbs the raise with the 60-unit back-off. -/
theorem malformed_payload_raises_and_loop_continues_witness :
    get_weather_data (.ok ⟨none⟩) 7 "Toronto" "Canada" = .raised .keyError ∧
    loopIter envKeyErr 0 0 = 60 ∧
    collectorMain none envKeyErr 3 ≠ .crashed .keyError := by
  have h := malformed_payload_raises_and_loop_continues ⟨none⟩ 7 "Toronto"
    "Canada" (by decide)
  exact ⟨h.1, by simpa using (h.2.1 envKeyErr 0 0 rfl).1,
    h.2.2 envKeyErr 3 .keyError⟩

/-- C2 counterexample: the history handler does not clamp an
out-of-range `limit` into `[1, 1000]` — it substitutes the default 100:
a request for 2000 rows is served with limit 100, not 1000, and a
request for 0 rows with limit 100, not 1. -/
theorem history_limit_not_clamped_cex :
    validatedHistoryLimit 2000 = 100 ∧ validatedHistoryLimit 2000 ≠ 1000 ∧
    validatedHistoryLimit 0 = 100 ∧ validatedHistoryLimit 0 ≠ 1 := by
  refine ⟨?_, ?_, ?_, ?_⟩ <;> decide

/-- C2 (amended): a requested `limit` inside `[1, 1000]` is used as is,
while a request outside that interval is served with the default 100;
the history query never returns more rows than the effective limit,
every returned row has timestamp at or after the window start, and the
rows are ordered by descending timestamp. -/
theorem history_limit_validation_and_range (table : List Row) (now : Int)
    (hoursP limitP : Option String) :
    (∀ l : Int, 1 ≤ l → l ≤ 1000 → validatedHistoryLimit l = l) ∧
    (∀ l : Int, l < 1 ∨ 1000 < l → validatedHistoryLimit l = 100) ∧
    (∃ rows, get_weather_history table now hoursP limitP = .ok 200 rows ∧
      rows.length ≤ (validatedHistoryLimit (parseIntParam limitP 100)).toNat ∧
      (∀ r ∈ rows,
        now - validatedHistoryHours (parseIntParam hoursP 24) ≤ r.timestamp) ∧
      List.Sorted tsGe rows) := by
  refine ⟨fun l h1 h2 => ?_, fun l h => ?_, ?_⟩
  · unfold validatedHistoryLimit
    have hno : ¬(l < 1 ∨ 1000 < l) := by omega
    rw [if_neg hno]
  · unfold validatedHistoryLimit
    rw [if_pos h]
  · exact ⟨_, rfl, rangeQuery_length_le _ _ _,
      fun r hr => rangeQuery_mem_since hr, rangeQuery_sorted _ _ _⟩

/-- C2 witness: in-range limit 500 is used as is; out-of-range limit
2000 becomes 100. -/
theorem history_limit_validation_and_range_witness :
    validatedHistoryLimit 500 = 500 ∧ validatedHistoryLimit 2000 = 100 :=
  ⟨(history_limit_validation_and_range [] 0 none none).1 500
      (by norm_num) (by norm_num),
    (history_limit_validation_and_range [] 0 none none).2.1 2000
      (by norm_num)⟩

/-- C8: an `hours` below 1 is replaced by the default 24 in both the
history and the stats handler, so the served window starts at
`now - 24`; in particular `hours=0` is served exactly like `hours=24`. -/
theorem hours_below_one_uses_default (table : List Row) (now : Int)
    (limitP : Option String) (h : Int) (hlt : h < 1) :
    validatedHistoryHours h = 24 ∧ validatedStatsHours h = 24 ∧
    now - validatedHistoryHours h = now - 24 ∧
    get_weather_history table now (some "0") limitP =
      get_weather_history table now (some "24") limitP ∧
    get_weather_stats table now (some "0") =
      get_weather_stats table now (some "24") := by
  have hv : validatedHistoryHours (parseIntParam (some "0") 24) =
      validatedHistoryHours (parseIntParam (some "24") 24) := by decide
  have hs : validatedStatsHours (parseIntParam (some "0") 24) =
      validatedStatsHours (parseIntParam (some "24") 24) := by decide
  refine ⟨?_, ?_, ?_, ?_, ?_⟩
  · unfold validatedHistoryHours
    rw [if_pos hlt]
  · unfold validatedStatsHours
    rw [if_pos hlt]
  · unfold validatedHistoryHours
    rw [if_pos hlt]
  · simp only [get_weather_history]
    rw [hv]
  · simp only [get_weather_stats]
    rw [hs]

/-- C8 witness: the default substitution at `hours = 0` on a concrete
request. -/
theorem hours_below_one_uses_default_witness :
    validatedHistoryHours 0 = 24 ∧
    get_weather_history [] 3 (some "0") none =
      get_weather_history [] 3 (some "24") none := by
  have h := hours_below_one_uses_default [] 3 none 0 (by norm_num)
  exact ⟨h.1, h.2.2.2.1⟩

/-- C9: a history request whose window matches no stored row is answered
200 with the empty array — not 404 — while the current endpoint answers
404 on an empty table and the stats endpoint answers 404 on a zero-count
window. -/
theorem history_empty_window_returns_200 (table : List Row) (now : Int)
    (hoursP limitP : Option String)
    (hempty : table.filter (fun r =>
      decide (now - validatedHistoryHours (parseIntParam hoursP 24)
        ≤ r.timestamp)) = []) :
    get_weather_history table now hoursP limitP = .ok 200 [] ∧
    get_current_weather [] = .err 404 "No weather data available" ∧
    (∀ (t2 : List Row) (now2 : Int) (hp2 : Option String),
      (aggregateRows t2
        (now2 - validatedStatsHours (parseIntParam hp2 24))).record_count = 0 →
      get_weather_stats t2 now2 hp2 =
        .err 404 "No weather data available for the specified time range") := by
  refine ⟨?_, rfl, fun t2 now2 hp2 hz => ?_⟩
  · simp only [get_weather_history]
    rw [rangeQuery_of_filter_eq_nil hempty]
  · simp only [get_weather_stats]
    simp [hz]

/-- C9 witness: one stored row outside the 24-hour window yields 200
with the empty array from the history endpoint, and the empty table
yields 404 from the stats endpoint. -/
theorem history_empty_window_returns_200_witness :
    get_weather_history [⟨1, 20, none, none, -100, "x", "y"⟩] 0 none none =
      .ok 200 [] ∧
    get_weather_stats [] 0 none =
      .err 404 "No weather data available for the specified time range" := by
  have h := history_empty_window_returns_200
    [⟨1, 20, none, none, -100, "x", "y"⟩] 0 none none (by decide)
  exact ⟨h.1, h.2.2 [] 0 none (by decide)⟩

/-- C10 counterexample: a stats request with unparseable `hours` over an
empty store is answered 404 — a 4xx — so not every request with an
unparseable parameter is served with status 200. -/
theorem unparseable_hours_not_always_200_cex :
    get_weather_stats [] 0 (some "abc") =
      .err 404 "No weather data available for the specified time range" ∧
    (get_weather_stats [] 0 (some "abc")).statusCode ≠ 200 := by
  exact ⟨by decide, by decide⟩

/-- C10 (amended): an `hours` or `limit` value that does not parse as an
integer is silently replaced by the default (24 and 100): the request is
served exactly as if the parameter were absent, with no 400-level parse
rejection — the history endpoint answers 200, and the stats endpoint
answers as it would for the default window (404 only in the no-data case
that equally affects a well-formed request). -/
theorem unparseable_params_use_defaults (table : List Row) (now : Int)
    (s : String) (hbad : parseInt s = none) :
    parseIntParam (some s) 24 = 24 ∧ parseIntParam (some s) 100 = 100 ∧
    (∀ limitP, get_weather_history table now (some s) limitP =
      get_weather_history table now none limitP) ∧
    (∀ hoursP, get_weather_history table now hoursP (some s) =
      get_weather_history table now hoursP none) ∧
    get_weather_stats table now (some s) = get_weather_stats table now none ∧
    (∃ rows, get_weather_history table now (some s) (some s) = .ok 200 rows) := by
  have h24 : parseIntParam (some s) 24 = 24 := by
    simp [parseIntParam, hbad]
  have h100 : parseIntParam (some s) 100 = 100 := by
    simp [parseIntParam, hbad]
  refine ⟨h24, h100, fun limitP => ?_, fun hoursP => ?_, ?_, ⟨_, rfl⟩⟩
  · simp only [get_weather_history, h24]
    rfl
  · simp only [get_weather_history, h100]
    rfl
  · simp only [get_weather_stats, h24]
    rfl

/-- C10 witness: `hours=abc` is served exactly like an absent `hours`. -/
theorem unparseable_params_use_defaults_witness :
    parseIntParam (some "abc") 24 = 24 ∧
    get_weather_history [] 0 (some "abc") none =
      get_weather_history [] 0 none none := by
  have h := unparseable_params_use_defaults [] 0 "abc" (by decide)
  exact ⟨h.1, h.2.2.1 none⟩

/-- C5: a stats request whose window matches zero rows is answered 404
with an error body; a request whose window matches at least one row is
answered 200, the body being the aggregate row with every
floating-point field rounded to 2 decimal digits (`round2` yields a
multiple of 1/100 within 1/200 of the exact aggregate); and no 200
response ever carries `record_count = 0`. -/
theorem stats_zero_rows_404_and_rounded (table : List Row) (now : Int)
    (hoursP : Option String) :
    ((aggregateRows table
        (now - validatedStatsHours (parseIntParam hoursP 24))).record_count = 0 →
      get_weather_stats table now hoursP =
        .err 404 "No weather data available for the specified time range") ∧
    (0 < (aggregateRows table
        (now - validatedStatsHours (parseIntParam hoursP 24))).record_count →
      get_weather_stats table now hoursP =
        .ok 200 (roundStatsRow (aggregateRows table
          (now - validatedStatsHours (parseIntParam hoursP 24))))) ∧
    (∀ st b, get_weather_stats table now hoursP = .ok st b →
      st = 200 ∧ 0 < b.record_count ∧
      b = roundStatsRow (aggregateRows table
        (now - validatedStatsHours (parseIntParam hoursP 24)))) ∧
    (∀ q : ℚ, (round2 q * 100).den = 1 ∧ |round2 q - q| ≤ 1 / 200) := by
  refine ⟨fun hz => ?_, fun hpos => ?_, fun st b hok => ?_, fun q => ⟨?_, ?_⟩⟩
  · simp [get_weather_stats, hz]
  · simp only [get_weather_stats]
    rw [if_pos hpos]
  · simp only [get_weather_stats] at hok
    by_cases hc : 0 < (aggregateRows table
        (now - validatedStatsHours (parseIntParam hoursP 24))).record_count
    · rw [if_pos hc] at hok
      obtain ⟨h1, h2⟩ := ApiResponse.ok.inj hok
      refine ⟨h1.symm, ?_, h2.symm⟩
      rw [← h2]
      exact hc
    · rw [if_neg hc] at hok
      exact absurd hok (by simp)
  · have hmul : round2 q * 100 = ((round (100 * q) : ℤ) : ℚ) := by
      unfold round2
      field_simp
    rw [hmul, Rat.den_intCast]
  · have habs := abs_sub_round (100 * q)
    unfold round2
    rw [abs_sub_comm] at habs
    have hquot : |(round (100 * q) : ℚ) / 100 - q|
        = |(round (100 * q) : ℚ) - 100 * q| / 100 := by
      rw [← abs_of_pos (show (0 : ℚ) < 100 by norm_num), ← abs_div]
      congr 1
      field_simp
    rw [hquot]
    calc |(round (100 * q) : ℚ) - 100 * q| / 100 ≤ (1 / 2) / 100 :=
          div_le_div_of_nonneg_right habs (by norm_num)
      _ = 1 / 200 := by norm_num

/-- C5 witness: the empty store yields the 404 error body, a store with
one row inside the default window yields 200 with the rounded aggregate
row, and `round2` of 157/100 is an exact multiple of 1/100. -/
theorem stats_zero_rows_404_and_rounded_witness :
    get_weather_stats [] 0 none =
      .err 404 "No weather data available for the specified time range" ∧
    get_weather_stats [⟨1, 20, some 60, none, -1, "x", "y"⟩] 0 none =
      .ok 200 (roundStatsRow (aggregateRows [⟨1, 20, some 60, none, -1, "x", "y"⟩]
        (0 - validatedStatsHours (parseIntParam none 24)))) ∧
    (round2 ((157 : ℚ) / 100) * 100).den = 1 := by
  have h := stats_zero_rows_404_and_rounded [] 0 none
  have h2 := stats_zero_rows_404_and_rounded
    [⟨1, 20, some 60, none, -1, "x", "y"⟩] 0 none
  exact ⟨h.1 (by decide), h2.2.1 (by decide), (h.2.2.2 ((157 : ℚ) / 100)).1⟩

/-- C4 counterexample: in the weather_app.py variant the readiness
handler answers from the cached `db_healthy` flag: with the flag still
true but the store unreachable at request time it returns 200, where the
claim demands 503 for a store that is unreachable at that moment. -/
theorem ready_cached_flag_cex :
    weatherAppReady true false = (200, "ready") ∧
    (weatherAppReady true false).1 ≠ 503 := by
  exact ⟨rfl, by decide⟩

/-- C4 (amended): the Flask API's readiness handler runs the store
connectivity probe during each request and answers from its outcome
alone — 200 exactly when the store is reachable at that moment, 503
otherwise, so a recovered store yields 200 on the next request with no
process restart; the weather_app.py health-server variant instead serves
the cached `db_healthy` flag, and its answer is independent of the
store's state at request time. -/
theorem ready_fresh_probe_vs_cached :
    (∀ r : Bool, ready r =
      if check_db_health r then (200, "ready") else (503, "not ready")) ∧
    (ready false).1 = 503 ∧ (ready true).1 = 200 ∧
    (∀ c rNow rNow' : Bool,
      weatherAppReady c rNow = weatherAppReady c rNow') := by
  exact ⟨fun r => rfl, rfl, rfl, fun c rNow rNow' => rfl⟩

/-- C7 counterexample: the `/metrics` handler performs no counter
increment at all (the claim demands exactly one), and no handler —
`/health` shown here — records any observation in the
`api_request_duration` histogram. -/
theorem metrics_handler_counts_cex :
    metricsEvents.countP MetricEvent.isCounterInc = 0 ∧
    metricsEvents.countP MetricEvent.isHistogramObserve = 0 ∧
    healthEvents.countP MetricEvent.isHistogramObserve = 0 := by
  exact ⟨rfl, rfl, rfl⟩

/-- C7 (amended): each api.py handler except `/metrics` increments the
`{method, endpoint, status}` request counter exactly once per request,
whatever the outcome (200, 404, 500 or 503); the `/metrics` handler
increments nothing; and no handler records any observation in the
declared duration histogram — weather_app.py's health-server handler
touches no metric at all. -/
theorem request_counter_once_no_histogram :
    (∀ o : QueryOutcome,
      (currentEvents o).countP MetricEvent.isCounterInc = 1 ∧
      (currentEvents o).countP MetricEvent.isHistogramObserve = 0) ∧
    (∀ o : QueryOutcome,
      (statsEvents o).countP MetricEvent.isCounterInc = 1 ∧
      (statsEvents o).countP MetricEvent.isHistogramObserve = 0) ∧
    (∀ d : Bool,
      (historyEvents d).countP MetricEvent.isCounterInc = 1 ∧
      (historyEvents d).countP MetricEvent.isHistogramObserve = 0) ∧
    (∀ r : Bool,
      (readyEvents r).countP MetricEvent.isCounterInc = 1 ∧
      (readyEvents r).countP MetricEvent.isHistogramObserve = 0) ∧
    healthEvents.countP MetricEvent.isCounterInc = 1 ∧
    healthEvents.countP MetricEvent.isHistogramObserve = 0 ∧
    metricsEvents.countP MetricEvent.isCounterInc = 0 ∧
    metricsEvents.countP MetricEvent.isHistogramObserve = 0 ∧
    (∀ p : String, weatherAppHandlerEvents p = []) := by
  refine ⟨fun o => ?_, fun o => ?_, fun d => ?_, fun r => ?_,
    rfl, rfl, rfl, rfl, fun p => rfl⟩
  · cases o <;> exact ⟨rfl, rfl⟩
  · cases o <;> exact ⟨rfl, rfl⟩
  · cases d <;> exact ⟨rfl, rfl⟩
  · cases r <;> exact ⟨rfl, rfl⟩

end WeatherApp
